import Mathlib

/-
  Verification of the emulator process supervisor (emulator.go: `PubSubEmulator`).

  The embedding translates the supervisor's data model and operations directly
  from the Go source.  Times are modelled in milliseconds (`time.Since` /
  `time.After` comparisons become `Nat` comparisons).  The three monitoring
  goroutines are modelled by: (a) `monitorOutput`, a pure function over the list
  of lines a stream yields; (b) `monitorProcess`, a function of the elapsed time
  at process exit and the instance state; (c) a `Timeline` of signal-arrival
  times consumed by `waitForEmulator`.  Go's `select` picks uniformly at random
  among simultaneously-ready cases; the embedding resolves such ties by the
  source's textual case order, and every theorem that could be sensitive to a
  tie carries strict-inequality hypotheses so that no conclusion depends on the
  tie-break.
-/

namespace PubSubSupervisor

/-- Does `pat` occur at the head of `s` (character lists)? -/
def charsLead : List Char → List Char → Bool
  | [], _ => true
  | _ :: _, [] => false
  | a :: as, b :: bs => a == b && charsLead as bs

/-- Does `pat` occur anywhere within `s` (character lists)? -/
def charsWithin (pat : List Char) : List Char → Bool
  | [] => charsLead pat []
  | b :: bs => charsLead pat (b :: bs) || charsWithin pat bs

/-- `strings.Contains`: substring test on the underlying character lists. -/
def strContains (s pat : String) : Bool :=
  charsWithin pat.data s.data

/-- The readiness marker scanned for on stderr (source: `"Server started"`). -/
def readyMarker : String := "Server started"

/-- First bind-conflict marker (source: `"Address already in use"`). -/
def bindMarkerA : String := "Address already in use"

/-- Second bind-conflict marker (source: `"BindException"`). -/
def bindMarkerB : String := "BindException"

/-- Third bind-conflict marker (source: `"already in use: bind"`). -/
def bindMarkerC : String := "already in use: bind"

/-- A line counts as a readiness line when it contains the readiness marker. -/
def isReadyLine (l : String) : Bool := strContains l readyMarker

/-- A line counts as a bind-conflict line when it contains any of the three
    fatal substrings checked by `monitorOutput`. -/
def isBindConflictLine (l : String) : Bool :=
  strContains l bindMarkerA || strContains l bindMarkerB || strContains l bindMarkerC

/-- The distinct error values the supervisor can hand back from `Start`.
    Each constructor corresponds to one `fmt.Errorf` site in the source
    (or to `ctx.Err()` for `cancelled`). -/
inductive StartError where
  /-- `"emulator already running"` (guard at the top of `Start`). -/
  | alreadyRunning : StartError
  /-- `"failed to create data directory: %w"` (directory creation step). -/
  | dirCreateFailed : StartError
  /-- `"emulator failed to start: port %d already in use"` (from `monitorOutput`). -/
  | portConflict (port : Nat) : StartError
  /-- `"error reading emulator output: %w"` (scanner error in `monitorOutput`). -/
  | readFailed : StartError
  /-- `"emulator process exited immediately: %v"` (from `monitorProcess`). -/
  | earlyExit : StartError
  /-- `"timeout waiting for emulator to start ..."` (phase-2 deadline). -/
  | timeout : StartError
  /-- `ctx.Err()` surfaced when the caller's context fires. -/
  | cancelled : StartError
  deriving DecidableEq, Repr

/-- Mutable state of one `PubSubEmulator` instance, plus the process-wide
    `PUBSUB_EMULATOR_HOST` environment entry (`envHost`), which the source
    reads and writes through `os.Setenv` / `os.Unsetenv`.  `cmdSet` models
    `em.cmd != nil`; `processSet` models `em.cmd.Process != nil` (i.e. the
    process was actually launched by a successful `cmd.Start()`). -/
structure EmulatorState where
  ProjectID : String
  Port : Nat
  DataDir : String
  hostPort : String
  cmdSet : Bool
  processSet : Bool
  isRunning : Bool
  envHost : Option String
  deriving DecidableEq, Repr

/-- `os.TempDir()` as a fixed root, as on the Linux target. -/
def tempDir : String := "/tmp"

/-- `NewPubSubEmulator`: a freshly constructed, inert instance. -/
def NewPubSubEmulator (projectID : String) (port : Nat) : EmulatorState :=
  { ProjectID := projectID
    Port := port
    DataDir := tempDir ++ "/pubsub-emulator-data"
    hostPort := ""
    cmdSet := false
    processSet := false
    isRunning := false
    envHost := none }

/-- `Host()`: returns the stored host:port string. -/
def Host (em : EmulatorState) : String := em.hostPort

/-- `IsRunning()`: returns the running flag. -/
def IsRunning (em : EmulatorState) : Bool := em.isRunning

/-- `prepareCommand`: computes `"localhost:<port>"`, stores it, and builds the
    command value (`em.cmd != nil` afterwards).  It never fails. -/
def prepareCommand (em : EmulatorState) : EmulatorState :=
  { em with hostPort := "localhost:" ++ toString em.Port, cmdSet := true }

/-- The six escalation steps of `stopUnlocked`, in the claim's vocabulary:
    kill the owned process handle; kill whatever is bound to the port; kill by
    the runtime name heuristic (java); kill by emulator-family name fragments
    (emulator/pubsub/gcloud); kill the process tree rooted at the launched PID;
    clear the endpoint-registry entry (`os.Unsetenv`).  The Windows and
    non-Windows branches of each numbered block in the source perform the same
    step kind, so the platform split is not modelled. -/
inductive ShutdownStep where
  | killProcess : ShutdownStep
  | killByPort : ShutdownStep
  | killJava : ShutdownStep
  | killEmulator : ShutdownStep
  | killTree : ShutdownStep
  | clearRegistry : ShutdownStep
  deriving DecidableEq, Repr

/-- Observable events of one shutdown run: each attempted step together with
    whether the underlying OS command failed (the source discards that
    outcome), and the final clearing of the running flag. -/
inductive StopEvent where
  | step (s : ShutdownStep) (failed : Bool) : StopEvent
  | flagCleared : StopEvent
  deriving DecidableEq, Repr

/-- `stopUnlocked`: no-op when the running flag is false; otherwise the ordered
    best-effort escalation.  `fail` is an oracle giving each step's OS-level
    outcome; the source ignores every such outcome (`.Run()` / `.Kill()` errors
    are discarded), which the model reflects by the result being independent of
    `fail` except for the decoration recorded in the trace.  Steps 1 and 5 are
    guarded by `em.cmd != nil && em.cmd.Process != nil` as in the source.
    `os.Unsetenv` is modelled as always effective.  The flag flips to false
    after every step has been attempted (the `flagCleared` event is last). -/
def stopUnlocked (fail : ShutdownStep → Bool) (em : EmulatorState) :
    EmulatorState × List StopEvent :=
  if em.isRunning = false then (em, [])
  else
    let owned := em.cmdSet && em.processSet
    let evs : List StopEvent :=
      (if owned then [StopEvent.step ShutdownStep.killProcess (fail ShutdownStep.killProcess)] else [])
      ++ [StopEvent.step ShutdownStep.killByPort (fail ShutdownStep.killByPort),
          StopEvent.step ShutdownStep.killJava (fail ShutdownStep.killJava),
          StopEvent.step ShutdownStep.killEmulator (fail ShutdownStep.killEmulator)]
      ++ (if owned then [StopEvent.step ShutdownStep.killTree (fail ShutdownStep.killTree)] else [])
      ++ [StopEvent.step ShutdownStep.clearRegistry (fail ShutdownStep.clearRegistry),
          StopEvent.flagCleared]
    ({ em with envHost := none, isRunning := false }, evs)

/-- `Stop()`: takes the mutex and runs `stopUnlocked`. -/
def Stop (fail : ShutdownStep → Bool) (em : EmulatorState) :
    EmulatorState × List StopEvent :=
  stopUnlocked fail em

/-- `n` sequential `Stop()` calls; returns the final state and each call's
    event trace, in call order. -/
def stopN (fail : ShutdownStep → Bool) : Nat → EmulatorState → EmulatorState × List (List StopEvent)
  | 0, em => (em, [])
  | n + 1, em =>
      let p := Stop fail em
      let q := stopN fail n p.1
      (q.1, p.2 :: q.2)

/-- What one `monitorOutput` run produces from the lines its stream yields:
    the lines forwarded to the observation sink (in order, up to the point the
    monitor returns), the number of non-blocking readiness sends attempted on
    `readyCh`, and the error, if any, sent on `errorCh`. -/
structure MonitorResult where
  printed : List String
  readyAttempts : Nat
  errSent : Option StartError
  deriving DecidableEq, Repr

/-- `monitorOutput`: scans lines in order.  Every line is printed; when
    `checkReady` is set, each line containing the readiness marker triggers a
    non-blocking send on `readyCh`; a line containing a bind-conflict marker
    sends a port-conflict error and stops the monitor (`return`).  `readErr`
    models `scanner.Err() != nil` at end of stream, which is forwarded on
    `errorCh`. -/
def monitorOutput (checkReady : Bool) (port : Nat) (readErr : Bool) :
    List String → MonitorResult
  | [] => { printed := [], readyAttempts := 0,
            errSent := if readErr then some StartError.readFailed else none }
  | l :: ls =>
      let r := if checkReady && isReadyLine l then 1 else 0
      if isBindConflictLine l then
        { printed := [l], readyAttempts := r, errSent := some (StartError.portConflict port) }
      else
        let rest := monitorOutput checkReady port readErr ls
        { printed := l :: rest.printed, readyAttempts := r + rest.readyAttempts,
          errSent := rest.errSent }

/-- Where `monitorProcess` delivers its signal, if anywhere: a startup error on
    the shared `errorCh` (blocking send; `errorCh` has capacity 2 and at most
    the two monitors compete, so the send completes), a fault on the
    asynchronous `errChan` (non-blocking send), or nothing. -/
inductive ProcSignal where
  | startupErr (e : StartError) : ProcSignal
  | fault : ProcSignal
  | silent : ProcSignal
  deriving DecidableEq, Repr

/-- `3 * time.Second` in the early-exit check of `monitorProcess`, in ms. -/
def earlyExitWindow : Nat := 3000

/-- `monitorProcess`: blocks until process exit at `elapsedMs` after launch.
    An exit within the window is reported on `errorCh` as the immediate-exit
    error.  A later exit takes the mutex and, only when the running flag is
    set, clears the flag and try-sends the crash fault on `errChan`; otherwise
    nothing is delivered on any channel. -/
def monitorProcess (elapsedMs : Nat) (em : EmulatorState) :
    EmulatorState × ProcSignal :=
  if elapsedMs < earlyExitWindow then (em, ProcSignal.startupErr StartError.earlyExit)
  else if em.isRunning then
    ({ em with isRunning := false }, ProcSignal.fault)
  else (em, ProcSignal.silent)

/-- `3 * time.Second` phase-1 grace window of `waitForEmulator`, in ms. -/
def grace : Nat := 3000

/-- `30 * time.Second` overall startup budget of `waitForEmulator`, in ms. -/
def budget : Nat := 30000

/-- Arrival times (ms since entry into `waitForEmulator`) of the asynchronous
    signals the coordinator races: a readiness delivery on `readyCh`, an error
    on `errorCh` (with its value), and the caller's context firing.  `none`
    means the signal never arrives. -/
structure Timeline where
  readyAt : Option Nat
  errAt : Option Nat
  errVal : StartError
  cancelAt : Option Nat
  deriving DecidableEq, Repr

/-- Clip an optional arrival time to `bound + 1`, so that `bound + 1` encodes
    "not within this phase". -/
def orElseInf (a : Option Nat) (bound : Nat) : Nat :=
  match a with
  | none => bound + 1
  | some t => min t (bound + 1)

/-- The transition-check drain between the two phases: a non-blocking read of
    `errorCh` at the moment the grace window elapses. -/
def errPendingAtGrace (tl : Timeline) : Bool :=
  match tl.errAt with
  | none => false
  | some t => decide (t ≤ grace)

/-- Phase 2 of `waitForEmulator`: readiness, error, the 30-second deadline of
    `timeoutCtx`, or cancellation — first arrival wins, ties resolved in the
    source's case order (ready, error, deadline, cancel). -/
def phase2 (fail : ShutdownStep → Bool) (tl : Timeline) (em : EmulatorState) :
    EmulatorState × Option StartError × Bool :=
  let r2 := orElseInf tl.readyAt budget
  let e2 := orElseInf tl.errAt budget
  let c2 := orElseInf tl.cancelAt budget
  let m2 := min r2 (min e2 (min budget c2))
  if r2 = m2 then ({ em with isRunning := true }, none, false)
  else if e2 = m2 then ((stopUnlocked fail em).1, some tl.errVal, true)
  else if m2 = budget then ((stopUnlocked fail em).1, some StartError.timeout, true)
  else ((stopUnlocked fail em).1, some StartError.cancelled, true)

/-- `waitForEmulator`: the two-phase wait.  Phase 1 races readiness, error,
    the 3-second grace timer and cancellation; when the timer wins, the error
    channel is drained once before phase 2 (in this deterministic time model
    the drain can never find anything, because an error at or before the grace
    boundary is already selected in phase 1, but the branch mirrors the
    source).  The Boolean in the result records whether `stopUnlocked` was
    invoked on this path before returning. -/
def waitForEmulator (fail : ShutdownStep → Bool) (tl : Timeline) (em : EmulatorState) :
    EmulatorState × Option StartError × Bool :=
  let r1 := orElseInf tl.readyAt grace
  let e1 := orElseInf tl.errAt grace
  let c1 := orElseInf tl.cancelAt grace
  let m1 := min r1 (min e1 (min grace c1))
  if r1 = m1 then ({ em with isRunning := true }, none, false)
  else if e1 = m1 then ((stopUnlocked fail em).1, some tl.errVal, true)
  else if m1 = grace then
    if errPendingAtGrace tl then ((stopUnlocked fail em).1, some tl.errVal, true)
    else phase2 fail tl em
  else ((stopUnlocked fail em).1, some StartError.cancelled, true)

/-- Outcomes of the external world that `Start` depends on: whether
    `os.MkdirAll` succeeds, whether the two pipe captures succeed, whether
    `cmd.Start()` succeeds, and the signal timeline of the launched run. -/
structure LaunchEnv where
  dirOk : Bool
  pipesOk : Bool
  startOk : Bool
  tl : Timeline
  deriving DecidableEq, Repr

/-- When `startMonitoring` fails (pipe capture or `cmd.Start()`), it returns
    `(nil, nil)`; a `select` on nil channels never fires, so the ready and
    error arrivals vanish from the coordinator's view while timers and the
    caller's context still fire. -/
def nilTimeline (tl : Timeline) : Timeline :=
  { tl with readyAt := none, errAt := none }

/-- The timeline `waitForEmulator` actually observes: the real one when
    `startMonitoring` succeeded, the nil-channel one otherwise. -/
def effTimeline (env : LaunchEnv) : Timeline :=
  if env.pipesOk && env.startOk then env.tl else nilTimeline env.tl

/-- The instance state right after `prepareCommand` and `startMonitoring`:
    the command value is built, and the process handle exists exactly when
    both pipe captures and `cmd.Start()` succeeded. -/
def launchedState (env : LaunchEnv) (em : EmulatorState) : EmulatorState :=
  { prepareCommand em with processSet := env.pipesOk && env.startOk }

/-- Result of one `Start` call: the instance state afterwards (including the
    registry entry), the returned error, whether `stopUnlocked` ran before the
    return, and whether control reached `cmd.Start()` (a fresh launch was
    attempted). -/
structure StartOutcome where
  em : EmulatorState
  err : Option StartError
  stopInvoked : Bool
  launchAttempted : Bool
  deriving DecidableEq, Repr

/-- `Start`: the guard on the running flag, directory creation, command
    preparation, `startMonitoring` (pipes + `cmd.Start()`), the two-phase
    wait, and on success the publication of the host address to the
    `PUBSUB_EMULATOR_HOST` registry entry. -/
def Start (fail : ShutdownStep → Bool) (env : LaunchEnv) (em : EmulatorState) :
    StartOutcome :=
  if em.isRunning then
    { em := em, err := some StartError.alreadyRunning, stopInvoked := false,
      launchAttempted := false }
  else if env.dirOk = false then
    { em := em, err := some StartError.dirCreateFailed, stopInvoked := false,
      launchAttempted := false }
  else
    let w := waitForEmulator fail (effTimeline env) (launchedState env em)
    match w.2.1 with
    | some e =>
        { em := w.1, err := some e, stopInvoked := w.2.2, launchAttempted := env.pipesOk }
    | none =>
        { em := { w.1 with envHost := some w.1.hostPort }, err := none,
          stopInvoked := w.2.2, launchAttempted := env.pipesOk }

/-- A Go channel reduced to what the claims need: its capacity and how many
    values currently sit in its buffer. -/
structure SlotChan where
  cap : Nat
  buffered : Nat
  deriving DecidableEq, Repr

/-- A non-blocking send (`select { case ch <- v: default: }`): delivered
    directly when a receiver is currently blocked on the channel, buffered when
    the buffer has room, and otherwise dropped (the `default` branch). -/
def trySend (c : SlotChan) (receiverWaiting : Bool) : SlotChan × Bool :=
  if receiverWaiting && c.buffered = 0 then (c, true)
  else if c.buffered < c.cap then
    ({ cap := c.cap, buffered := c.buffered + 1 }, true)
  else (c, false)

/-- Whether a later receive (with no sender present) can observe a value:
    only a buffered value survives until then. -/
def recvReady (c : SlotChan) : Bool := c.buffered > 0

/-- Capacity of `readyCh` as the source allocates it: `make(chan struct{})`
    — unbuffered. -/
def readyChCapacity : Nat := 0

/-- Capacity of `errorCh` as the source allocates it: `make(chan error, 2)`. -/
def errorChCapacity : Nat := 2

/-- Capacity of `errChan` as the source allocates it: `make(chan error, 1)`. -/
def errChanCapacity : Nat := 1

/-- The readiness channel as the spec describes it (a single-slot,
    capacity-one channel), stated for comparison with `readyChCapacity`
    taken from the source. -/
def readyChCapacitySpec : Nat := 1

/-- The failure kinds the spec calls a `Failed` startup resolution: an error
    signal (port conflict or read failure), an early exit, the overall
    timeout, or cancellation — everything except the pre-launch guard and
    directory failures. -/
def failedResolution : StartError → Bool
  | StartError.alreadyRunning => false
  | StartError.dirCreateFailed => false
  | _ => true

/-- Oracle under which every shutdown step's OS command succeeds. -/
def failNone : ShutdownStep → Bool := fun _ => false

/-- Oracle under which the kill-by-port step's OS command fails. -/
def failPortStep : ShutdownStep → Bool := fun s => s == ShutdownStep.killByPort

/-- Sample project label for concrete runs. -/
def demoProject : String := "demo"

/-- Sample port for concrete runs. -/
def demoPort : Nat := 8085

/-- A freshly constructed sample instance. -/
def demoEm : EmulatorState := NewPubSubEmulator demoProject demoPort

/-- A timeline on which a bind-conflict error arrives 10 ms in and readiness
    never does. -/
def conflictTimeline : Timeline :=
  { readyAt := none, errAt := some 10,
    errVal := StartError.portConflict demoPort, cancelAt := none }

/-- A timeline on which readiness arrives immediately. -/
def readyTimeline : Timeline :=
  { readyAt := some 0, errAt := none, errVal := StartError.timeout, cancelAt := none }

/-- A timeline on which the process-exit error arrives 1 s in (the watcher's
    early-exit report) and nothing else ever arrives. -/
def earlyExitTimeline : Timeline :=
  { readyAt := none, errAt := some 1000, errVal := StartError.earlyExit, cancelAt := none }

/-- A launch environment whose process emits the bind-conflict error. -/
def envConflict : LaunchEnv :=
  { dirOk := true, pipesOk := true, startOk := true, tl := conflictTimeline }

/-- A launch environment whose process becomes ready immediately. -/
def envReady : LaunchEnv :=
  { dirOk := true, pipesOk := true, startOk := true, tl := readyTimeline }

/-- A launch environment in which capturing the output streams fails. -/
def envNoPipes : LaunchEnv :=
  { dirOk := true, pipesOk := false, startOk := true, tl := readyTimeline }

/-- A launch environment whose process exits cleanly 1 s after launch with no
    readiness marker ever emitted. -/
def envEarlyExit : LaunchEnv :=
  { dirOk := true, pipesOk := true, startOk := true, tl := earlyExitTimeline }

/-- A sample instance in the `Running` state, as left by a successful
    `Start`. -/
def runningDemo : EmulatorState :=
  { ProjectID := demoProject, Port := demoPort,
    DataDir := tempDir ++ "/pubsub-emulator-data",
    hostPort := "localhost:" ++ toString demoPort,
    cmdSet := true, processSet := true, isRunning := true,
    envHost := some ("localhost:" ++ toString demoPort) }

theorem orElseInf_none (bound : Nat) : orElseInf none bound = bound + 1 := rfl

theorem orElseInf_some (t bound : Nat) :
    orElseInf (some t) bound = min t (bound + 1) := rfl

theorem stopUnlocked_not_running (fail : ShutdownStep → Bool) (em : EmulatorState)
    (h : em.isRunning = false) : stopUnlocked fail em = (em, []) := by
  simp [stopUnlocked, h]

theorem stopUnlocked_flag (fail : ShutdownStep → Bool) (em : EmulatorState) :
    (stopUnlocked fail em).1.isRunning = false := by
  by_cases h : em.isRunning = false <;> simp [stopUnlocked, h]

theorem stopN_not_running (fail : ShutdownStep → Bool) (n : Nat) (em : EmulatorState)
    (h : em.isRunning = false) : stopN fail n em = (em, List.replicate n []) := by
  induction n with
  | zero => simp [stopN]
  | succ k ih => simp [stopN, Stop, stopUnlocked_not_running fail em h, ih, List.replicate_succ]

/-- Every run of `waitForEmulator` either resolves `Running` (flag set, no
    error, no shutdown) or resolves `Failed` with `stopUnlocked` invoked
    before returning the error. -/
theorem waitForEmulator_shape (fail : ShutdownStep → Bool) (tl : Timeline)
    (em : EmulatorState) :
    waitForEmulator fail tl em = ({ em with isRunning := true }, none, false) ∨
    ∃ e, waitForEmulator fail tl em = ((stopUnlocked fail em).1, some e, true) := by
  simp only [waitForEmulator, phase2]
  split_ifs <;>
    first
      | (left; rfl)
      | (right; exact ⟨tl.errVal, rfl⟩)
      | (right; exact ⟨StartError.timeout, rfl⟩)
      | (right; exact ⟨StartError.cancelled, rfl⟩)

/-- When readiness arrives within the budget and no error or cancellation ever
    does, the coordinator resolves `Running`. -/
theorem waitForEmulator_ready (fail : ShutdownStep → Bool) (tl : Timeline)
    (em : EmulatorState) (t : Nat) (hr : tl.readyAt = some t) (he : tl.errAt = none)
    (hc : tl.cancelAt = none) (ht : t < budget) :
    waitForEmulator fail tl em = ({ em with isRunning := true }, none, false) := by
  simp only [budget] at ht
  simp only [waitForEmulator, phase2, errPendingAtGrace, hr, he, hc,
    orElseInf_none, orElseInf_some, grace, budget]
  split_ifs <;> first | rfl | omega | simp_all

/-- When an error arrives strictly within the grace window and neither
    readiness nor cancellation ever arrives, the coordinator resolves `Failed`
    with that error in phase 1, invoking `stopUnlocked`. -/
theorem waitForEmulator_err1 (fail : ShutdownStep → Bool) (tl : Timeline)
    (em : EmulatorState) (t : Nat) (he : tl.errAt = some t) (ht : t < grace)
    (hr : tl.readyAt = none) (hc : tl.cancelAt = none) :
    waitForEmulator fail tl em = ((stopUnlocked fail em).1, some tl.errVal, true) := by
  simp only [grace] at ht
  simp only [waitForEmulator, phase2, errPendingAtGrace, hr, he, hc,
    orElseInf_none, orElseInf_some, grace, budget, decide_eq_true_eq]
  split_ifs <;> first | rfl | omega

/-- When no signal ever arrives (in particular when `startMonitoring` handed
    back nil channels), the coordinator times out at the 30-second budget and
    invokes `stopUnlocked`. -/
theorem waitForEmulator_starved (fail : ShutdownStep → Bool) (tl : Timeline)
    (em : EmulatorState) (hr : tl.readyAt = none) (he : tl.errAt = none)
    (hc : tl.cancelAt = none) :
    waitForEmulator fail tl em =
      ((stopUnlocked fail em).1, some StartError.timeout, true) := by
  simp only [waitForEmulator, phase2, errPendingAtGrace, hr, he, hc,
    orElseInf_none, orElseInf_some, grace, budget]
  split_ifs <;> first | rfl | omega | simp_all

theorem effTimeline_ok (env : LaunchEnv) (hp : env.pipesOk = true)
    (hs : env.startOk = true) : effTimeline env = env.tl := by
  simp [effTimeline, hp, hs]

theorem launchedState_ok (env : LaunchEnv) (em : EmulatorState)
    (hp : env.pipesOk = true) (hs : env.startOk = true) :
    launchedState env em = { prepareCommand em with processSet := true } := by
  simp [launchedState, hp, hs]

/-- The guard branch of `Start`: an already-running instance is rejected
    before any side effect. -/
theorem Start_already (fail : ShutdownStep → Bool) (env : LaunchEnv)
    (em : EmulatorState) (h : em.isRunning = true) :
    Start fail env em =
      { em := em, err := some StartError.alreadyRunning, stopInvoked := false,
        launchAttempted := false } := by
  simp [Start, h]

/-- The directory-creation failure branch of `Start`. -/
theorem Start_dirFail (fail : ShutdownStep → Bool) (env : LaunchEnv)
    (em : EmulatorState) (h0 : em.isRunning = false) (hd : env.dirOk = false) :
    Start fail env em =
      { em := em, err := some StartError.dirCreateFailed, stopInvoked := false,
        launchAttempted := false } := by
  simp [Start, h0, hd]

/-- The success branch of `Start`: a `Running` resolution sets the flag and
    publishes the host address to the registry. -/
theorem Start_resolved (fail : ShutdownStep → Bool) (env : LaunchEnv)
    (em : EmulatorState) (h0 : em.isRunning = false) (hd : env.dirOk = true)
    (hw : waitForEmulator fail (effTimeline env) (launchedState env em) =
          ({ launchedState env em with isRunning := true }, none, false)) :
    Start fail env em =
      { em := { launchedState env em with
                  isRunning := true,
                  envHost := some (launchedState env em).hostPort },
        err := none, stopInvoked := false, launchAttempted := env.pipesOk } := by
  simp [Start, h0, hd, hw]

/-- The failure branch of `Start`: a `Failed` resolution of the wait is
    surfaced unchanged, with `stopUnlocked` already invoked. -/
theorem Start_failedWait (fail : ShutdownStep → Bool) (env : LaunchEnv)
    (em : EmulatorState) (e : StartError) (h0 : em.isRunning = false)
    (hd : env.dirOk = true)
    (hw : waitForEmulator fail (effTimeline env) (launchedState env em) =
          ((stopUnlocked fail (launchedState env em)).1, some e, true)) :
    Start fail env em =
      { em := (stopUnlocked fail (launchedState env em)).1, err := some e,
        stopInvoked := true, launchAttempted := env.pipesOk } := by
  simp [Start, h0, hd, hw]

/-- Whenever the guard and directory step pass, `Start` reaches `cmd.Start()`
    exactly when pipe capture succeeded, whatever the wait resolves to. -/
theorem Start_launch (fail : ShutdownStep → Bool) (env : LaunchEnv)
    (em : EmulatorState) (h0 : em.isRunning = false) (hd : env.dirOk = true) :
    (Start fail env em).launchAttempted = env.pipesOk := by
  rcases waitForEmulator_shape fail (effTimeline env) (launchedState env em) with hw | ⟨e, hw⟩
  · rw [Start_resolved fail env em h0 hd hw]
  · rw [Start_failedWait fail env em e h0 hd hw]

/-- C1: every startup that resolves as Failed — an error signal, an early
    exit, the overall timeout, or cancellation — has invoked the shutdown
    procedure (`stopUnlocked`) before `Start` returns its error; in
    particular, when a bind-conflict marker produces the port-conflict error
    within the grace window, `Start` returns that `PortConflict` error with
    the shutdown procedure already invoked. -/
theorem c1_failed_resolution_invokes_shutdown :
    (∀ (fail : ShutdownStep → Bool) (env : LaunchEnv) (em : EmulatorState) (e : StartError),
        (Start fail env em).err = some e → failedResolution e = true →
        (Start fail env em).stopInvoked = true) ∧
    (∀ (fail : ShutdownStep → Bool) (env : LaunchEnv) (p : String) (port t : Nat),
        env.dirOk = true → env.pipesOk = true → env.startOk = true →
        env.tl.readyAt = none → env.tl.cancelAt = none → env.tl.errAt = some t →
        t < grace → env.tl.errVal = StartError.portConflict port →
        (Start fail env (NewPubSubEmulator p port)).err = some (StartError.portConflict port) ∧
        (Start fail env (NewPubSubEmulator p port)).stopInvoked = true) := by
  constructor
  · intro fail env em e he hf
    cases hrun : em.isRunning with
    | true =>
        rw [Start_already fail env em hrun] at he
        cases he
        simp [failedResolution] at hf
    | false =>
        cases hdir : env.dirOk with
        | false =>
            rw [Start_dirFail fail env em hrun hdir] at he
            cases he
            simp [failedResolution] at hf
        | true =>
            rcases waitForEmulator_shape fail (effTimeline env) (launchedState env em)
              with hw | ⟨e2, hw⟩
            · rw [Start_resolved fail env em hrun hdir hw] at he
              simp at he
            · rw [Start_failedWait fail env em e2 hrun hdir hw]
  · intro fail env p port t hd hp hs hr hc he ht hv
    have htl := effTimeline_ok env hp hs
    have hw := waitForEmulator_err1 fail env.tl
      (launchedState env (NewPubSubEmulator p port)) t he ht hr hc
    rw [hv] at hw
    have hw2 : waitForEmulator fail (effTimeline env)
        (launchedState env (NewPubSubEmulator p port)) =
        ((stopUnlocked fail (launchedState env (NewPubSubEmulator p port))).1,
         some (StartError.portConflict port), true) := by
      rw [htl]; exact hw
    rw [Start_failedWait fail env (NewPubSubEmulator p port)
      (StartError.portConflict port) rfl hd hw2]
    exact ⟨rfl, rfl⟩

/-- C1 witness: the bind-conflict scenario at port 8085, error arriving
    10 ms in. -/
theorem c1_witness :
    (Start failNone envConflict demoEm).err = some (StartError.portConflict demoPort) ∧
    (Start failNone envConflict demoEm).stopInvoked = true :=
  c1_failed_resolution_invokes_shutdown.2 failNone envConflict demoProject demoPort 10
    rfl rfl rfl rfl rfl rfl (by decide) rfl

/-- C2 (documents the code bug): when locating the executable or capturing the
    output streams fails, `startMonitoring` silently returns nil channels and
    `Start` resolves through the 30-second overall deadline, returning the
    generic timeout error — not a configuration-kind error as the spec
    requires. -/
theorem c2_launch_prep_failure_times_out (fail : ShutdownStep → Bool)
    (env : LaunchEnv) (p : String) (port : Nat) (hd : env.dirOk = true)
    (hps : env.pipesOk = false ∨ env.startOk = false)
    (hc : env.tl.cancelAt = none) :
    (Start fail env (NewPubSubEmulator p port)).err = some StartError.timeout ∧
    (Start fail env (NewPubSubEmulator p port)).err ≠ some StartError.dirCreateFailed := by
  have hok : (env.pipesOk && env.startOk) = false := by
    rcases hps with h | h <;> simp [h]
  have htl : effTimeline env = nilTimeline env.tl := by simp [effTimeline, hok]
  have hw := waitForEmulator_starved fail (nilTimeline env.tl)
    (launchedState env (NewPubSubEmulator p port)) rfl rfl (by simp [nilTimeline, hc])
  have hw2 : waitForEmulator fail (effTimeline env)
      (launchedState env (NewPubSubEmulator p port)) =
      ((stopUnlocked fail (launchedState env (NewPubSubEmulator p port))).1,
       some StartError.timeout, true) := by
    rw [htl]; exact hw
  rw [Start_failedWait fail env (NewPubSubEmulator p port) StartError.timeout rfl hd hw2]
  exact ⟨rfl, by simp⟩

/-- C2 witness: pipe capture fails; even though the (unobservable) timeline
    had readiness at time 0, `Start` returns the timeout error. -/
theorem c2_witness :
    (Start failNone envNoPipes demoEm).err = some StartError.timeout ∧
    (Start failNone envNoPipes demoEm).err ≠ some StartError.dirCreateFailed :=
  c2_launch_prep_failure_times_out failNone envNoPipes demoProject demoPort rfl
    (Or.inl rfl) rfl

/-- C3 counterexample: the readiness channel is allocated unbuffered
    (`make(chan struct{})`), not with a single slot; consequently a readiness
    signal sent (non-blocking) while the coordinator is not waiting on the
    channel is dropped, and a subsequent read of the channel observes
    nothing. -/
theorem c3_counterexample :
    readyChCapacity = 0 ∧ readyChCapacity ≠ readyChCapacitySpec ∧
    (trySend { cap := readyChCapacity, buffered := 0 } false).2 = false ∧
    recvReady (trySend { cap := readyChCapacity, buffered := 0 } false).1 = false :=
  ⟨rfl, by decide, rfl, rfl⟩

/-- C3 amended: the readiness signal is sent with a non-blocking send on an
    unbuffered channel.  When the coordinator is concurrently waiting, the
    signal is delivered; when it is not, the signal is dropped and a later
    read does not observe it — retention in that scenario would require the
    capacity-one slot the spec describes, which the source does not allocate.
    Each readiness-marker line in the monitored stream attempts such a
    send. -/
theorem c3_amended_unbuffered_nonretaining :
    ((trySend { cap := readyChCapacity, buffered := 0 } true).2 = true) ∧
    ((trySend { cap := readyChCapacity, buffered := 0 } false).2 = false ∧
      recvReady (trySend { cap := readyChCapacity, buffered := 0 } false).1 = false) ∧
    ((trySend { cap := readyChCapacitySpec, buffered := 0 } false).2 = true ∧
      recvReady (trySend { cap := readyChCapacitySpec, buffered := 0 } false).1 = true) ∧
    (monitorOutput true demoPort false [readyMarker]).readyAttempts = 1 :=
  ⟨rfl, ⟨rfl, rfl⟩, ⟨rfl, rfl⟩, rfl⟩

/-- C4 counterexample: a failed `Start` is not terminal.  After the
    bind-conflict failure on `demoEm`, a second `Start` on the same instance
    attempts a fresh launch (`cmd.Start()` is reached) and even resolves
    `Running`. -/
theorem c4_counterexample :
    (Start failNone envConflict demoEm).err = some (StartError.portConflict demoPort) ∧
    (Start failNone envReady (Start failNone envConflict demoEm).em).launchAttempted = true ∧
    (Start failNone envReady (Start failNone envConflict demoEm).em).err = none :=
  ⟨rfl, rfl, rfl⟩

/-- C4 amended: a failed `Start` on a not-running instance leaves the running
    flag false, and the code does not block a later `Start` on the same
    instance: the only guard rejects a currently-running instance, so the
    subsequent call proceeds to attempt a fresh launch.  (The core itself
    performs no retry; terminality is not enforced.) -/
theorem c4_amended_failed_start_not_terminal (fail fail2 : ShutdownStep → Bool)
    (env env2 : LaunchEnv) (em : EmulatorState) (h0 : em.isRunning = false)
    (h1 : (Start fail env em).err.isSome = true) (hd2 : env2.dirOk = true)
    (hp2 : env2.pipesOk = true) :
    (Start fail env em).em.isRunning = false ∧
    (Start fail2 env2 (Start fail env em).em).launchAttempted = true := by
  have hflag : (Start fail env em).em.isRunning = false := by
    cases hdir : env.dirOk with
    | false => rw [Start_dirFail fail env em h0 hdir]; exact h0
    | true =>
        rcases waitForEmulator_shape fail (effTimeline env) (launchedState env em)
          with hw | ⟨e2, hw⟩
        · rw [Start_resolved fail env em h0 hdir hw] at h1
          simp at h1
        · rw [Start_failedWait fail env em e2 h0 hdir hw]
          exact stopUnlocked_flag fail (launchedState env em)
  refine ⟨hflag, ?_⟩
  rw [Start_launch fail2 env2 (Start fail env em).em hflag hd2]
  exact hp2

/-- C4 witness for the amended claim: the concrete bind-conflict failure
    followed by a second launch attempt. -/
theorem c4_witness :
    (Start failNone envConflict demoEm).em.isRunning = false ∧
    (Start failNone envReady (Start failNone envConflict demoEm).em).launchAttempted = true :=
  c4_amended_failed_start_not_terminal failNone failNone envConflict envReady demoEm
    rfl rfl rfl rfl

/-- C5: a `Running` resolution — readiness within the budget, no error and no
    cancellation — makes `Start` return no error, `IsRunning` report true,
    `Host` return `localhost:<configured-port>`, and the
    `PUBSUB_EMULATOR_HOST` registry entry carry that same address. -/
theorem c5_running_resolution (fail : ShutdownStep → Bool) (env : LaunchEnv)
    (p : String) (port t : Nat) (hd : env.dirOk = true) (hp : env.pipesOk = true)
    (hs : env.startOk = true) (hr : env.tl.readyAt = some t) (ht : t < budget)
    (he : env.tl.errAt = none) (hc : env.tl.cancelAt = none) :
    (Start fail env (NewPubSubEmulator p port)).err = none ∧
    IsRunning (Start fail env (NewPubSubEmulator p port)).em = true ∧
    Host (Start fail env (NewPubSubEmulator p port)).em = "localhost:" ++ toString port ∧
    (Start fail env (NewPubSubEmulator p port)).em.envHost =
      some ("localhost:" ++ toString port) := by
  have htl := effTimeline_ok env hp hs
  have hw := waitForEmulator_ready fail env.tl
    (launchedState env (NewPubSubEmulator p port)) t hr he hc ht
  have hw2 : waitForEmulator fail (effTimeline env)
      (launchedState env (NewPubSubEmulator p port)) =
      ({ launchedState env (NewPubSubEmulator p port) with isRunning := true },
       none, false) := by
    rw [htl]; exact hw
  rw [Start_resolved fail env (NewPubSubEmulator p port) rfl hd hw2]
  refine ⟨rfl, rfl, ?_, ?_⟩ <;>
    simp [Host, launchedState, prepareCommand, NewPubSubEmulator]

/-- C5 witness: readiness at time 0 on a fresh instance at port 8085. -/
theorem c5_witness :
    (Start failNone envReady demoEm).err = none ∧
    IsRunning (Start failNone envReady demoEm).em = true ∧
    Host (Start failNone envReady demoEm).em = "localhost:" ++ toString demoPort ∧
    (Start failNone envReady demoEm).em.envHost =
      some ("localhost:" ++ toString demoPort) :=
  c5_running_resolution failNone envReady demoProject demoPort 0 rfl rfl rfl rfl
    (by decide) rfl rfl

/-- C6: `Stop` is idempotent — on a never-started instance it is a no-op with
    an empty shutdown trace, and any `n + 1` sequential `Stop` calls on a
    running instance perform the (non-empty) shutdown sequence exactly once,
    every subsequent call being a no-op with an empty trace. -/
theorem c6_stop_idempotent :
    (∀ (fail : ShutdownStep → Bool) (p : String) (port : Nat),
        Stop fail (NewPubSubEmulator p port) = (NewPubSubEmulator p port, [])) ∧
    (∀ (fail : ShutdownStep → Bool) (em : EmulatorState) (n : Nat),
        em.isRunning = true →
        (stopN fail (n + 1) em).2 = (stopUnlocked fail em).2 :: List.replicate n [] ∧
        (stopN fail (n + 1) em).1 = (stopUnlocked fail em).1 ∧
        (stopUnlocked fail em).2 ≠ []) := by
  constructor
  · intro fail p port
    simp [Stop, stopUnlocked, NewPubSubEmulator]
  · intro fail em n h
    have hflag := stopUnlocked_flag fail em
    have hrest := stopN_not_running fail n (stopUnlocked fail em).1 hflag
    refine ⟨?_, ?_, ?_⟩
    · simp [stopN, Stop, hrest]
    · simp [stopN, Stop, hrest]
    · by_cases ho : (em.cmdSet && em.processSet) = true <;>
        simp [stopUnlocked, h, ho]

/-- C6 witness: a never-started instance, and three sequential stops on a
    running instance. -/
theorem c6_witness :
    Stop failNone (NewPubSubEmulator demoProject demoPort) =
      (NewPubSubEmulator demoProject demoPort, []) ∧
    (stopN failNone 3 runningDemo).2 =
      (stopUnlocked failNone runningDemo).2 :: List.replicate 2 [] ∧
    (stopN failNone 3 runningDemo).1 = (stopUnlocked failNone runningDemo).1 ∧
    (stopUnlocked failNone runningDemo).2 ≠ [] :=
  ⟨c6_stop_idempotent.1 failNone demoProject demoPort,
   c6_stop_idempotent.2 failNone runningDemo 2 rfl⟩

/-- C7: a second `Start` on an instance already in the `Running` state fails
    immediately with the already-running error and leaves the instance state
    — running flag, host address, process handle, registry entry — entirely
    unchanged, with no shutdown invoked and no launch attempted. -/
theorem c7_start_on_running_rejected (fail : ShutdownStep → Bool)
    (env : LaunchEnv) (em : EmulatorState) (h : em.isRunning = true) :
    Start fail env em =
      { em := em, err := some StartError.alreadyRunning, stopInvoked := false,
        launchAttempted := false } := by
  simp [Start, h]

/-- C7 witness: the concrete running instance. -/
theorem c7_witness :
    Start failNone envReady runningDemo =
      { em := runningDemo, err := some StartError.alreadyRunning,
        stopInvoked := false, launchAttempted := false } :=
  c7_start_on_running_rejected failNone envReady runningDemo rfl

/-- C8: on a running instance with a live process handle, the shutdown
    procedure performs the six escalation steps in the fixed order — kill the
    owned process, kill by port, kill by runtime name, kill by
    emulator-family names, kill the process tree, clear the registry entry —
    attempts every step regardless of which individual steps fail, and clears
    the running flag only after all steps (the `flagCleared` event is last);
    the resulting state has the flag false and the registry entry removed. -/
theorem c8_shutdown_sequence (fail : ShutdownStep → Bool) (em : EmulatorState)
    (h1 : em.isRunning = true) (h2 : em.cmdSet = true) (h3 : em.processSet = true) :
    stopUnlocked fail em =
      ({ em with isRunning := false, envHost := none },
       [StopEvent.step ShutdownStep.killProcess (fail ShutdownStep.killProcess),
        StopEvent.step ShutdownStep.killByPort (fail ShutdownStep.killByPort),
        StopEvent.step ShutdownStep.killJava (fail ShutdownStep.killJava),
        StopEvent.step ShutdownStep.killEmulator (fail ShutdownStep.killEmulator),
        StopEvent.step ShutdownStep.killTree (fail ShutdownStep.killTree),
        StopEvent.step ShutdownStep.clearRegistry (fail ShutdownStep.clearRegistry),
        StopEvent.flagCleared]) := by
  simp [stopUnlocked, h1, h2, h3]

/-- C8 witness: the running instance under an oracle where the kill-by-port
    step fails; every later step is still attempted and the flag still
    clears. -/
theorem c8_witness :
    stopUnlocked failPortStep runningDemo =
      ({ runningDemo with isRunning := false, envHost := none },
       [StopEvent.step ShutdownStep.killProcess false,
        StopEvent.step ShutdownStep.killByPort true,
        StopEvent.step ShutdownStep.killJava false,
        StopEvent.step ShutdownStep.killEmulator false,
        StopEvent.step ShutdownStep.killTree false,
        StopEvent.step ShutdownStep.clearRegistry false,
        StopEvent.flagCleared]) :=
  c8_shutdown_sequence failPortStep runningDemo rfl rfl rfl

/-- C9: a process exit strictly within 3 s of launch is reported by the
    watcher as the immediate-exit (EarlyExit) error on the startup error
    channel, and with no readiness resolution and no cancellation `Start`
    returns exactly that EarlyExit error — not the Timeout error. -/
theorem c9_early_exit_classification (fail : ShutdownStep → Bool)
    (env : LaunchEnv) (p : String) (port e : Nat) (hlt : e < earlyExitWindow)
    (hd : env.dirOk = true) (hp : env.pipesOk = true) (hs : env.startOk = true)
    (hr : env.tl.readyAt = none) (hc : env.tl.cancelAt = none)
    (he : env.tl.errAt = some e) (hv : env.tl.errVal = StartError.earlyExit) :
    (∀ st : EmulatorState, monitorProcess e st = (st, ProcSignal.startupErr StartError.earlyExit)) ∧
    (Start fail env (NewPubSubEmulator p port)).err = some StartError.earlyExit ∧
    (Start fail env (NewPubSubEmulator p port)).err ≠ some StartError.timeout := by
  have hg : e < grace := by
    simp only [earlyExitWindow] at hlt
    simp only [grace]
    omega
  have htl := effTimeline_ok env hp hs
  have hw := waitForEmulator_err1 fail env.tl
    (launchedState env (NewPubSubEmulator p port)) e he hg hr hc
  rw [hv] at hw
  have hw2 : waitForEmulator fail (effTimeline env)
      (launchedState env (NewPubSubEmulator p port)) =
      ((stopUnlocked fail (launchedState env (NewPubSubEmulator p port))).1,
       some StartError.earlyExit, true) := by
    rw [htl]; exact hw
  refine ⟨?_, ?_, ?_⟩
  · intro st
    simp [monitorProcess, hlt]
  · rw [Start_failedWait fail env (NewPubSubEmulator p port) StartError.earlyExit rfl hd hw2]
  · rw [Start_failedWait fail env (NewPubSubEmulator p port) StartError.earlyExit rfl hd hw2]
    simp

/-- C9 witness: a clean exit 1 s after launch with no readiness marker ever
    emitted. -/
theorem c9_witness :
    monitorProcess 1000 demoEm = (demoEm, ProcSignal.startupErr StartError.earlyExit) ∧
    (Start failNone envEarlyExit demoEm).err = some StartError.earlyExit ∧
    (Start failNone envEarlyExit demoEm).err ≠ some StartError.timeout :=
  ⟨(c9_early_exit_classification failNone envEarlyExit demoProject demoPort 1000
      (by decide) rfl rfl rfl rfl rfl rfl rfl).1 demoEm,
   (c9_early_exit_classification failNone envEarlyExit demoProject demoPort 1000
      (by decide) rfl rfl rfl rfl rfl rfl rfl).2⟩

/-- C10: a process exit 3 s or more after launch, while the running flag is
    still false (readiness never resolved), makes the watcher deliver no
    signal on any channel — neither the startup error channel nor the
    asynchronous fault channel — and leaves the state unchanged. -/
theorem c10_late_prerunning_exit_silent (e : Nat) (em : EmulatorState)
    (h1 : earlyExitWindow ≤ e) (h2 : em.isRunning = false) :
    monitorProcess e em = (em, ProcSignal.silent) := by
  have hge : ¬e < earlyExitWindow := by omega
  simp [monitorProcess, hge, h2]

/-- C10 witness: an exit exactly at the 3-second boundary on a fresh
    instance. -/
theorem c10_witness :
    monitorProcess 3000 demoEm = (demoEm, ProcSignal.silent) :=
  c10_late_prerunning_exit_silent 3000 demoEm (by decide) rfl

end PubSubSupervisor
